import Mathlib

/-!
Verification of the Upload and Processing Orchestration core of the
SDS Data Extractor frontend. The definitions below are a shallow
embedding of the logic in frontend/src/App.tsx (the FileUpload and App
components): the file selection store (onDropPdf, onDropExcel,
removePdfFile), the validation gate, the upload progress computation,
and the submission outcome handling of handleSubmit.
-/

/-- A raw file descriptor as the frontend sees it: name, byte size and
media type, mirroring the fields of a browser File object that the
source consults. -/
structure RawFile where
  name : String
  size : Nat
  mediaType : String
deriving DecidableEq

/-- The result object passed to onProcessingComplete in the source.
Fields that the source leaves undefined on some paths are Options. -/
structure ProcessingResult where
  success : Bool
  message : Option String
  outputFile : Option String
  sessionId : Option String
  error : Option String
deriving DecidableEq

/-- The JSON body of a 2xx response as read by the source. The source
casts the body without checking, so every field may be absent. -/
structure ResponseBody where
  message : Option String
  outputFile : Option String
  sessionId : Option String
deriving DecidableEq

/-- Outcome of the axios POST in handleSubmit: it either resolves with
a 2xx body, or throws an axios error carrying the optional error field
of the response body, or throws a non-axios error. -/
inductive UploadOutcome where
  | resolved (body : ResponseBody)
  | axiosRejected (responseError : Option String)
  | otherError
deriving DecidableEq

/-- True exactly on outcomes where the POST resolved with a 2xx body. -/
def isResolved : UploadOutcome → Bool
  | UploadOutcome.resolved _ => true
  | _ => false

/-- The fallback diagnostic of the catch branch in handleSubmit. -/
def genericErrorMessage : String := "An error occurred during processing"

/-- Embeds the error-message resolution of the catch branch: the
expression err.response.data.error with a truthiness fallback to the
generic message, so an absent or empty error field falls back. -/
def resolveErrorMessage : UploadOutcome → String
  | UploadOutcome.axiosRejected (some e) =>
      if e = "" then genericErrorMessage else e
  | _ => genericErrorMessage

/-- The ProcessingResult handleSubmit builds from the POST outcome: the
try branch on a resolved response, the catch branch otherwise. -/
def processOutcome : UploadOutcome → ProcessingResult
  | UploadOutcome.resolved data =>
      { success := true, message := data.message, outputFile := data.outputFile,
        sessionId := data.sessionId, error := none }
  | o =>
      { success := false, message := some "Processing failed", outputFile := none,
        sessionId := none, error := some (resolveErrorMessage o) }

/-- Combined state of the App and FileUpload components: the processing
flag and stored result of App, and the selection, progress and error
banner of FileUpload. -/
structure AppState where
  isProcessing : Bool
  processingResults : Option ProcessingResult
  pdfFiles : List RawFile
  excelFile : Option RawFile
  uploadProgress : Nat
  error : Option String
deriving DecidableEq

/-- The media-type test of onDropPdf: file.type equals application/pdf. -/
def isPdf (f : RawFile) : Bool := f.mediaType == "application/pdf"

/-- Embeds onDropPdf: keep only PDF candidates; when at least one
survives, append them and clear the error banner; otherwise set the
error banner and leave the list alone. -/
def onDropPdf (s : AppState) (acceptedFiles : List RawFile) : AppState :=
  let validFiles := acceptedFiles.filter isPdf
  if validFiles.length > 0 then
    { s with pdfFiles := s.pdfFiles ++ validFiles, error := none }
  else
    { s with error := some "Please upload valid PDF files" }

/-- The name test of onDropExcel: file.name ends with .xlsx, expressed
on the character sequence of the name. -/
def endsWithXlsx (name : String) : Bool :=
  List.isSuffixOf ".xlsx".data name.data

/-- Embeds onDropExcel: look only at the first candidate; when it
exists and its name ends in .xlsx, it replaces the stored spreadsheet
and the error banner is cleared; otherwise only the error banner is
set. -/
def onDropExcel (s : AppState) (acceptedFiles : List RawFile) : AppState :=
  match acceptedFiles.head? with
  | some file =>
      if endsWithXlsx file.name then
        { s with excelFile := some file, error := none }
      else
        { s with error := some "Please upload a valid Excel file (.xlsx)" }
  | none => { s with error := some "Please upload a valid Excel file (.xlsx)" }

/-- The list transformation of removePdfFile: filter over the indexed
list, keeping every element whose position differs from the argument. -/
def filterOutIndex {α : Type} (index : Nat) (l : List α) : List α :=
  List.map Prod.snd (List.filter (fun p => !(p.1 == index)) l.enum)

/-- Embeds removePdfFile. -/
def removePdfFile (s : AppState) (index : Nat) : AppState :=
  { s with pdfFiles := filterOutIndex index s.pdfFiles }

/-- The disabling condition the source uses both to guard handleSubmit
and to disable the submit button: no PDF selected or no Excel file. -/
def submitDisabled (s : AppState) : Bool :=
  s.pdfFiles.length == 0 || s.excelFile.isNone

/-- The validation gate of the spec: the negation of the disabling
condition of the source. -/
def canSubmit (s : AppState) : Bool := !(submitDisabled s)

/-- Rounding of a nonnegative quotient exactly as Math.round does on a
nonnegative real: the floor of the quotient plus one half. -/
def jsRound (numer denom : Nat) : Nat := (2 * numer + denom) / (2 * denom)

/-- Embeds the onUploadProgress handler: the percentage is
Math.round of (loaded truthy then loaded times 100 else 0) divided by
(total truthy then total else 100). -/
def percentCompleted (loaded : Nat) (total : Option Nat) : Nat :=
  jsRound (if loaded == 0 then 0 else loaded * 100)
          (if total.getD 0 == 0 then 100 else total.getD 0)

/-- Embeds handleSubmit given the eventual POST outcome. Returns the
resulting state and whether a request was issued. The early-return
validation branch sets the error banner and issues nothing; otherwise
the banner is cleared, processing starts, and the outcome is mapped to
a ProcessingResult delivered through onProcessingComplete, which stores
the result and stops processing. -/
def handleSubmit (s : AppState) (outcome : UploadOutcome) : AppState × Bool :=
  if submitDisabled s then
    ({ s with error := some "Please upload both PDF files and an Excel file" }, false)
  else
    let started := { s with error := none, isProcessing := true }
    match outcome with
    | UploadOutcome.resolved data =>
        ({ started with
             processingResults := some (processOutcome (UploadOutcome.resolved data)),
             isProcessing := false }, true)
    | o =>
        ({ started with
             error := some (resolveErrorMessage o),
             processingResults := some (processOutcome o),
             isProcessing := false }, true)

/-- Sample PDF descriptor used by concrete witnesses. -/
def pdfA : RawFile :=
  { name := "a.pdf", size := 10, mediaType := "application/pdf" }

/-- Second sample PDF descriptor. -/
def pdfB : RawFile :=
  { name := "b.pdf", size := 20, mediaType := "application/pdf" }

/-- Third sample PDF descriptor. -/
def pdfC : RawFile :=
  { name := "c.pdf", size := 30, mediaType := "application/pdf" }

/-- A candidate with a non-PDF media type. -/
def txtT : RawFile :=
  { name := "t.txt", size := 5, mediaType := "text/plain" }

/-- Sample spreadsheet descriptor. -/
def xlsxA : RawFile :=
  { name := "data.xlsx", size := 40,
    mediaType := "application/vnd.openxmlformats-officedocument.spreadsheetml.sheet" }

/-- Second sample spreadsheet descriptor. -/
def xlsxB : RawFile :=
  { name := "other.xlsx", size := 50,
    mediaType := "application/vnd.openxmlformats-officedocument.spreadsheetml.sheet" }

/-- A state with a valid selection and a submission already in flight. -/
def busyState : AppState :=
  { isProcessing := true, processingResults := none, pdfFiles := [pdfA],
    excelFile := some xlsxA, uploadProgress := 0, error := none }

/-- A state with a valid selection and no submission in flight. -/
def readyState : AppState :=
  { isProcessing := false, processingResults := none, pdfFiles := [pdfA, pdfB],
    excelFile := some xlsxA, uploadProgress := 0, error := none }

/-- The initial state: nothing selected. -/
def emptyState : AppState :=
  { isProcessing := false, processingResults := none, pdfFiles := [],
    excelFile := none, uploadProgress := 0, error := none }

/-- A state holding three selected PDF files. -/
def threeState : AppState :=
  { isProcessing := false, processingResults := none, pdfFiles := [pdfA, pdfB, pdfC],
    excelFile := none, uploadProgress := 0, error := none }

lemma filterOut_enumFrom_high {α : Type} (index : Nat) (l : List α) :
    ∀ n, index < n →
      List.map Prod.snd (List.filter (fun p => !(p.1 == index)) (List.enumFrom n l)) = l := by
  induction l with
  | nil => intro n _; rfl
  | cons a t ih =>
    intro n hn
    have hne : (!(n == index)) = true := by
      simp only [Bool.not_eq_true', beq_eq_false_iff_ne]
      omega
    simp only [List.enumFrom_cons, List.filter_cons, hne, if_true, List.map_cons]
    rw [ih (n + 1) (by omega)]

lemma filterOut_enumFrom_oob {α : Type} (index : Nat) (l : List α) :
    ∀ n, n + l.length ≤ index →
      List.map Prod.snd (List.filter (fun p => !(p.1 == index)) (List.enumFrom n l)) = l := by
  induction l with
  | nil => intro n _; rfl
  | cons a t ih =>
    intro n hn
    simp only [List.length_cons] at hn
    have hne : (!(n == index)) = true := by
      simp only [Bool.not_eq_true', beq_eq_false_iff_ne]
      omega
    simp only [List.enumFrom_cons, List.filter_cons, hne, if_true, List.map_cons]
    rw [ih (n + 1) (by omega)]

lemma filterOut_enumFrom_inb {α : Type} (index : Nat) (l : List α) :
    ∀ n, n ≤ index → index < n + l.length →
      List.map Prod.snd (List.filter (fun p => !(p.1 == index)) (List.enumFrom n l)) =
        List.take (index - n) l ++ List.drop (index - n + 1) l := by
  induction l with
  | nil =>
    intro n h1 h2
    simp only [List.length_nil] at h2
    omega
  | cons a t ih =>
    intro n h1 h2
    simp only [List.length_cons] at h2
    by_cases hn : n = index
    · subst hn
      have hne : (!(n == n)) = false := by simp
      simp only [List.enumFrom_cons, List.filter_cons, hne, Bool.false_eq_true, if_false]
      rw [filterOut_enumFrom_high n t (n + 1) (by omega)]
      simp [Nat.sub_self]
    · have hne : (!(n == index)) = true := by
        simp only [Bool.not_eq_true', beq_eq_false_iff_ne]
        omega
      simp only [List.enumFrom_cons, List.filter_cons, hne, if_true, List.map_cons]
      rw [ih (n + 1) (by omega) (by omega)]
      have e1 : index - n = index - (n + 1) + 1 := by omega
      rw [e1, List.take_succ_cons, List.drop_succ_cons]
      simp [List.cons_append]

/-- C1 (counterexample): with bytesTotal unknown and 250 bytes sent, the
handler emits 250, not the 0 the claim requires. -/
theorem progress_unknown_total_not_zero_cex :
    percentCompleted 250 none = 250 ∧ percentCompleted 250 none ≠ 0 := by
  constructor <;> decide

/-- C1 (amended): when bytesTotal is known and positive and bytesSent
does not exceed it, the emitted percentage is the half-up rounding of
bytesSent times 100 over bytesTotal and lies within 0 to 100 with no
clamping needed; when bytesTotal is unknown or zero the code divides by
100 instead, so it emits the raw byte count bytesSent, not 0. -/
theorem progress_formula_amended :
    (∀ loaded t : Nat, 0 < t → loaded ≤ t →
        percentCompleted loaded (some t) = (2 * (loaded * 100) + t) / (2 * t) ∧
        percentCompleted loaded (some t) ≤ 100) ∧
    (∀ loaded : Nat, percentCompleted loaded none = loaded) ∧
    (∀ loaded : Nat, percentCompleted loaded (some 0) = loaded) := by
  refine ⟨?_, ?_, ?_⟩
  · intro loaded t ht hle
    have ht' : (t == 0) = false := by
      simp only [beq_eq_false_iff_ne]
      omega
    have heq : percentCompleted loaded (some t) = (2 * (loaded * 100) + t) / (2 * t) := by
      by_cases hl : loaded = 0
      · subst hl
        simp [percentCompleted, jsRound, ht']
      · have hl' : (loaded == 0) = false := by
          simp only [beq_eq_false_iff_ne]
          omega
        simp [percentCompleted, jsRound, ht', hl']
    refine ⟨heq, ?_⟩
    rw [heq]
    have hlt : (2 * (loaded * 100) + t) / (2 * t) < 101 :=
      (Nat.div_lt_iff_lt_mul (by omega)).mpr (by omega)
    omega
  · intro loaded
    by_cases hl : loaded = 0
    · subst hl
      decide
    · have hl' : (loaded == 0) = false := by
        simp only [beq_eq_false_iff_ne]
        omega
      simp only [percentCompleted, jsRound, Option.getD, hl', if_false]
      norm_num
      omega
  · intro loaded
    by_cases hl : loaded = 0
    · subst hl
      decide
    · have hl' : (loaded == 0) = false := by
        simp only [beq_eq_false_iff_ne]
        omega
      simp only [percentCompleted, jsRound, Option.getD, hl', if_false]
      norm_num
      omega

/-- C1 witness: concrete evaluation of the amended statement at 50 of
200 bytes sent and at 123 bytes sent with unknown total. -/
theorem progress_formula_amended_witness :
    0 < 200 ∧ (50 : Nat) ≤ 200 ∧
    percentCompleted 50 (some 200) = (2 * (50 * 100) + 200) / (2 * 200) ∧
    percentCompleted 50 (some 200) ≤ 100 ∧
    percentCompleted 123 none = 123 :=
  ⟨by decide, by decide,
   (progress_formula_amended.1 50 200 (by decide) (by decide)).1,
   (progress_formula_amended.1 50 200 (by decide) (by decide)).2,
   progress_formula_amended.2.1 123⟩

/-- C2 (counterexample): a 2xx response whose body lacks the message
field still resolves with success true, contradicting the claim that a
malformed 2xx body is a failure. -/
theorem malformed_success_body_cex :
    (processOutcome (UploadOutcome.resolved
      { message := none, outputFile := none, sessionId := none })).success = true := rfl

/-- C2 (amended): on every outcome where the POST did not resolve —
network failure, non-2xx response, or other thrown error — the result
has success false, message Processing failed, no outputFile and no
sessionId, and its error detail is the server-supplied error field when
that field is present and non-empty, otherwise the generic fallback; a
2xx response never reaches this failure path, even with a body lacking
the message field. -/
theorem failure_result_amended (o : UploadOutcome) (h : isResolved o = false) :
    (processOutcome o).success = false ∧
    (processOutcome o).message = some "Processing failed" ∧
    (processOutcome o).outputFile = none ∧
    (processOutcome o).sessionId = none ∧
    (∀ e, o = UploadOutcome.axiosRejected (some e) → e ≠ "" →
      (processOutcome o).error = some e) ∧
    ((o = UploadOutcome.axiosRejected none ∨ o = UploadOutcome.axiosRejected (some "") ∨
        o = UploadOutcome.otherError) →
      (processOutcome o).error = some "An error occurred during processing") := by
  cases o with
  | resolved b => simp [isResolved] at h
  | axiosRejected re =>
    refine ⟨rfl, rfl, rfl, rfl, ?_, ?_⟩
    · intro e he hne
      injection he with h2
      subst h2
      simp [processOutcome, resolveErrorMessage, hne]
    · intro hcase
      rcases hcase with h1 | h1 | h1
      · injection h1 with h2
        subst h2
        rfl
      · injection h1 with h2
        subst h2
        rfl
      · cases h1
  | otherError =>
    refine ⟨rfl, rfl, rfl, rfl, ?_, ?_⟩
    · intro e he hne
      cases he
    · intro _
      rfl

/-- C2 witness: the amended statement evaluated at the HTTP 500
outcome carrying the error field Malformed PDF. -/
theorem failure_result_amended_witness :
    isResolved (UploadOutcome.axiosRejected (some "Malformed PDF")) = false ∧
    (processOutcome (UploadOutcome.axiosRejected (some "Malformed PDF"))).success = false ∧
    (processOutcome (UploadOutcome.axiosRejected (some "Malformed PDF"))).message =
      some "Processing failed" ∧
    (processOutcome (UploadOutcome.axiosRejected (some "Malformed PDF"))).error =
      some "Malformed PDF" :=
  ⟨rfl,
   (failure_result_amended (UploadOutcome.axiosRejected (some "Malformed PDF")) rfl).1,
   (failure_result_amended (UploadOutcome.axiosRejected (some "Malformed PDF")) rfl).2.1,
   (failure_result_amended (UploadOutcome.axiosRejected (some "Malformed PDF")) rfl).2.2.2.2.1
     "Malformed PDF" rfl (by decide)⟩

/-- C3 (counterexample): in a state with a submission already in flight
and a valid selection, a second handleSubmit invocation still issues a
transfer, so it is not rejected. -/
theorem second_submit_not_rejected_cex :
    busyState.isProcessing = true ∧
    (handleSubmit busyState UploadOutcome.otherError).2 = true := by
  constructor <;> rfl

/-- C3 (amended): handleSubmit never consults the in-flight flag: there
is no single-flight guard, so whenever the selection passes validation
a submit invocation issues a transfer, and its behaviour is identical
whether or not a prior submission is still in flight. -/
theorem submit_ignores_inflight_amended (s : AppState) (o : UploadOutcome)
    (h : submitDisabled s = false) :
    (handleSubmit s o).2 = true ∧
    handleSubmit { s with isProcessing := true } o = handleSubmit s o := by
  have h' : submitDisabled { s with isProcessing := true } = false := h
  cases o with
  | resolved b =>
    constructor
    · simp [handleSubmit, h]
    · simp [handleSubmit, h, h']
  | axiosRejected re =>
    constructor
    · simp [handleSubmit, h]
    · simp [handleSubmit, h, h']
  | otherError =>
    constructor
    · simp [handleSubmit, h]
    · simp [handleSubmit, h, h']

/-- C3 witness: the amended statement evaluated at the busy state. -/
theorem submit_ignores_inflight_witness :
    submitDisabled busyState = false ∧
    (handleSubmit busyState UploadOutcome.otherError).2 = true :=
  ⟨rfl, (submit_ignores_inflight_amended busyState UploadOutcome.otherError rfl).1⟩

/-- C4: every resolved response whose body carries a message field
yields a success result whose message, outputFile and sessionId fields
are exactly the corresponding body fields, with no error detail. -/
theorem success_result_passthrough (body : ResponseBody) (m : String)
    (h : body.message = some m) :
    processOutcome (UploadOutcome.resolved body) =
      { success := true, message := some m, outputFile := body.outputFile,
        sessionId := body.sessionId, error := none } := by
  simp [processOutcome, h]

/-- C4 witness: the exact simulated service response of the spec. -/
theorem success_result_passthrough_witness :
    ({ message := some "Updated 3 rows", outputFile := some "out.xlsx",
       sessionId := some "abc123" } : ResponseBody).message = some "Updated 3 rows" ∧
    processOutcome (UploadOutcome.resolved
      { message := some "Updated 3 rows", outputFile := some "out.xlsx",
        sessionId := some "abc123" }) =
      { success := true, message := some "Updated 3 rows",
        outputFile := some "out.xlsx", sessionId := some "abc123", error := none } :=
  ⟨rfl, success_result_passthrough _ "Updated 3 rows" rfl⟩

/-- C5: the validation gate holds exactly when the document list is
non-empty and a spreadsheet is present; when it fails at submit time,
no request is issued, the processing flag and stored results are
untouched, and the validation failure is reported on the error banner. -/
theorem canSubmit_gate (s : AppState) (o : UploadOutcome) :
    (canSubmit s = true ↔ s.pdfFiles ≠ [] ∧ s.excelFile ≠ none) ∧
    (canSubmit s = false →
      (handleSubmit s o).2 = false ∧
      (handleSubmit s o).1.isProcessing = s.isProcessing ∧
      (handleSubmit s o).1.processingResults = s.processingResults ∧
      (handleSubmit s o).1.pdfFiles = s.pdfFiles ∧
      (handleSubmit s o).1.excelFile = s.excelFile ∧
      (handleSubmit s o).1.error = some "Please upload both PDF files and an Excel file") := by
  constructor
  · simp only [canSubmit, submitDisabled, Bool.not_eq_true', Bool.or_eq_false_iff,
      beq_eq_false_iff_ne, ne_eq, Option.isNone_eq_false_iff, Option.isSome_iff_ne_none,
      List.length_eq_zero]
  · intro hfail
    have hd : submitDisabled s = true := by
      simpa [canSubmit] using hfail
    simp [handleSubmit, hd]

/-- C5 witness: the gate at the empty initial state. -/
theorem canSubmit_gate_witness :
    canSubmit emptyState = false ∧
    (handleSubmit emptyState UploadOutcome.otherError).2 = false ∧
    (handleSubmit emptyState UploadOutcome.otherError).1.isProcessing =
      emptyState.isProcessing ∧
    (handleSubmit emptyState UploadOutcome.otherError).1.processingResults =
      emptyState.processingResults ∧
    (handleSubmit emptyState UploadOutcome.otherError).1.pdfFiles = emptyState.pdfFiles ∧
    (handleSubmit emptyState UploadOutcome.otherError).1.excelFile = emptyState.excelFile ∧
    (handleSubmit emptyState UploadOutcome.otherError).1.error =
      some "Please upload both PDF files and an Excel file" :=
  ⟨rfl, (canSubmit_gate emptyState UploadOutcome.otherError).2 rfl⟩

/-- C6: dropping document candidates appends exactly the PDF ones, in
their relative order, to the existing list without touching the
spreadsheet slot; when none passes the filter the list is unchanged and
a rejection reason is reported. -/
theorem addDocuments_filter_append (s : AppState) (candidates : List RawFile) :
    (onDropPdf s candidates).pdfFiles = s.pdfFiles ++ candidates.filter isPdf ∧
    (onDropPdf s candidates).excelFile = s.excelFile ∧
    (candidates.filter isPdf = [] →
      (onDropPdf s candidates).pdfFiles = s.pdfFiles ∧
      (onDropPdf s candidates).error = some "Please upload valid PDF files") := by
  by_cases hf : candidates.filter isPdf = []
  · refine ⟨?_, ?_, ?_⟩
    · simp [onDropPdf, hf]
    · simp [onDropPdf, hf]
    · intro _
      constructor
      · simp [onDropPdf, hf]
      · simp [onDropPdf, hf]
  · have hl : (candidates.filter isPdf).length > 0 := by
      cases hq : candidates.filter isPdf with
      | nil => exact absurd hq hf
      | cons x xs => simp [hq]
    refine ⟨?_, ?_, ?_⟩
    · simp [onDropPdf, hl]
    · simp [onDropPdf, hl]
    · intro hc
      exact absurd hc hf

/-- C6 witness: a mixed drop keeps only the PDF, and an all-rejected
drop leaves the list unchanged and reports the reason. -/
theorem addDocuments_filter_append_witness :
    (onDropPdf readyState [txtT, pdfC]).pdfFiles =
      readyState.pdfFiles ++ [txtT, pdfC].filter isPdf ∧
    ([txtT] : List RawFile).filter isPdf = [] ∧
    (onDropPdf readyState [txtT]).pdfFiles = readyState.pdfFiles ∧
    (onDropPdf readyState [txtT]).error = some "Please upload valid PDF files" :=
  ⟨(addDocuments_filter_append readyState [txtT, pdfC]).1, by decide,
   ((addDocuments_filter_append readyState [txtT]).2.2 (by decide)).1,
   ((addDocuments_filter_append readyState [txtT]).2.2 (by decide)).2⟩

/-- C7: the first dropped spreadsheet candidate is accepted exactly
when its name ends in .xlsx, in which case it replaces any previously
stored spreadsheet, so two valid drops leave only the second; a
rejected or empty drop leaves the stored spreadsheet untouched. -/
theorem setSpreadsheet_lastWriteWins :
    (∀ (s : AppState) (f : RawFile) (rest : List RawFile),
       (onDropExcel s (f :: rest)).excelFile =
         (if endsWithXlsx f.name then some f else s.excelFile)) ∧
    (∀ (s : AppState) (f g : RawFile) (l1 l2 : List RawFile),
       endsWithXlsx f.name = true → endsWithXlsx g.name = true →
       (onDropExcel (onDropExcel s (f :: l1)) (g :: l2)).excelFile = some g) ∧
    (∀ s : AppState, (onDropExcel s []).excelFile = s.excelFile) := by
  refine ⟨?_, ?_, ?_⟩
  · intro s f rest
    by_cases hf : endsWithXlsx f.name
    · simp [onDropExcel, hf]
    · simp [onDropExcel, hf]
  · intro s f g l1 l2 hf hg
    simp [onDropExcel, hf, hg]
  · intro s
    simp [onDropExcel]

/-- C7 witness: two valid spreadsheet drops on the empty state leave
exactly the second one stored. -/
theorem setSpreadsheet_lastWriteWins_witness :
    endsWithXlsx xlsxA.name = true ∧ endsWithXlsx xlsxB.name = true ∧
    (onDropExcel (onDropExcel emptyState [xlsxA]) [xlsxB]).excelFile = some xlsxB :=
  ⟨by decide, by decide,
   setSpreadsheet_lastWriteWins.2.1 emptyState xlsxA xlsxB [] [] (by decide) (by decide)⟩

/-- C8: when the submission outcome maps to a failure result, the file
selection is untouched: the document list and spreadsheet slot of the
post-submit state are exactly those at invocation time. -/
theorem failed_submission_preserves_selection (s : AppState) (o : UploadOutcome)
    (h : (processOutcome o).success = false) :
    (handleSubmit s o).1.pdfFiles = s.pdfFiles ∧
    (handleSubmit s o).1.excelFile = s.excelFile := by
  by_cases hd : submitDisabled s
  · constructor
    · simp [handleSubmit, hd]
    · simp [handleSubmit, hd]
  · cases o with
    | resolved b =>
      constructor
      · simp [handleSubmit, hd]
      · simp [handleSubmit, hd]
    | axiosRejected re =>
      constructor
      · simp [handleSubmit, hd]
      · simp [handleSubmit, hd]
    | otherError =>
      constructor
      · simp [handleSubmit, hd]
      · simp [handleSubmit, hd]

/-- C8 witness: a network failure on the ready state leaves the
selection intact. -/
theorem failed_submission_preserves_selection_witness :
    (processOutcome UploadOutcome.otherError).success = false ∧
    (handleSubmit readyState UploadOutcome.otherError).1.pdfFiles = readyState.pdfFiles ∧
    (handleSubmit readyState UploadOutcome.otherError).1.excelFile = readyState.excelFile :=
  ⟨rfl, failed_submission_preserves_selection readyState UploadOutcome.otherError rfl⟩

/-- C9: removing a document at an out-of-bounds index is a no-op, and
at an in-bounds index it removes exactly that element, keeping the rest
in order. -/
theorem removeDocumentAt_spec (s : AppState) (index : Nat) :
    (s.pdfFiles.length ≤ index → (removePdfFile s index).pdfFiles = s.pdfFiles) ∧
    (index < s.pdfFiles.length →
      (removePdfFile s index).pdfFiles =
        s.pdfFiles.take index ++ s.pdfFiles.drop (index + 1)) := by
  constructor
  · intro h
    show filterOutIndex index s.pdfFiles = s.pdfFiles
    unfold filterOutIndex
    have he : s.pdfFiles.enum = List.enumFrom 0 s.pdfFiles := rfl
    rw [he, filterOut_enumFrom_oob index s.pdfFiles 0 (by omega)]
  · intro h
    show filterOutIndex index s.pdfFiles = _
    unfold filterOutIndex
    have he : s.pdfFiles.enum = List.enumFrom 0 s.pdfFiles := rfl
    rw [he, filterOut_enumFrom_inb index s.pdfFiles 0 (by omega) (by omega)]
    simp

/-- C9 witness: on a three-element list, index 5 is a no-op and index 1
removes exactly the middle element. -/
theorem removeDocumentAt_spec_witness :
    (removePdfFile threeState 5).pdfFiles = threeState.pdfFiles ∧
    (removePdfFile threeState 1).pdfFiles =
      threeState.pdfFiles.take 1 ++ threeState.pdfFiles.drop 2 :=
  ⟨(removeDocumentAt_spec threeState 5).1 (by decide),
   (removeDocumentAt_spec threeState 1).2 (by decide)⟩

/-- C10: every result delivered by the outcome mapping satisfies field
exclusivity: a success result carries no error detail, and a failure
result carries neither outputFile nor sessionId. -/
theorem result_field_exclusivity (o : UploadOutcome) :
    ((processOutcome o).success = true → (processOutcome o).error = none) ∧
    ((processOutcome o).success = false →
      (processOutcome o).outputFile = none ∧ (processOutcome o).sessionId = none) := by
  cases o with
  | resolved b =>
    constructor
    · intro _; rfl
    · intro h; simp [processOutcome] at h
  | axiosRejected re =>
    constructor
    · intro h; simp [processOutcome] at h
    · intro _; exact ⟨rfl, rfl⟩
  | otherError =>
    constructor
    · intro h; simp [processOutcome] at h
    · intro _; exact ⟨rfl, rfl⟩

/-- C10 witness: exclusivity evaluated on a concrete success outcome
and a concrete failure outcome. -/
theorem result_field_exclusivity_witness :
    (processOutcome (UploadOutcome.resolved
      { message := some "ok", outputFile := none, sessionId := none })).error = none ∧
    (processOutcome UploadOutcome.otherError).outputFile = none ∧
    (processOutcome UploadOutcome.otherError).sessionId = none :=
  ⟨(result_field_exclusivity (UploadOutcome.resolved
      { message := some "ok", outputFile := none, sessionId := none })).1 rfl,
   (result_field_exclusivity UploadOutcome.otherError).2 rfl⟩
